import Mathlib

/-!
Verification of the Loom orchestrator core.

This file gives a shallow embedding of the orchestrator pipeline
(`packages/engine/src/orchestrator.ts`), the agent runner
(`packages/engine/src/agent.ts`) and the persistence schema
(`packages/db/src/schema.ts`), and proves the testable properties stated in
the design document.

The SQLite store is modelled as lists of rows plus autoincrement counters;
row order is insertion order, matching SQLite rowid order for these tables.
External collaborators (GitHub API, git subprocesses, the agent child
process) are modelled by an environment record giving the outcome of each
external call; a thrown JavaScript error is an `Except.error` outcome, and
the orchestrator's `try`/`catch` blocks appear as explicit matches on those
outcomes.  Discarded outcomes correspond exactly to `catch` blocks that
swallow the error.
-/

namespace Loom

/-- Task status enum of the `tasks` table (schema.ts). -/
inductive TaskStatus where
  | todo
  | in_progress
  | completed
  | failed
deriving DecidableEq, Repr

/-- Agent-run status enum of the `agent_runs` table (schema.ts). -/
inductive RunStatus where
  | running
  | completed
  | failed
deriving DecidableEq, Repr

/-- A row of the `repos` table (schema.ts).  Timestamps are omitted: no
orchestrator decision reads them. -/
structure RepoRow where
  id : Nat
  owner : String
  name : String
  githubUrl : String
  watchLabel : String
deriving DecidableEq, Repr

/-- A row of the `tasks` table (schema.ts).  Timestamps are omitted. -/
structure TaskRow where
  id : Nat
  title : String
  description : Option String
  githubIssueId : Option Nat
  repoId : Option Nat
  status : TaskStatus
  prNumber : Option Nat
  prUrl : Option String
deriving DecidableEq, Repr

/-- A row of the `agent_runs` table (schema.ts).  `startedAt` is omitted. -/
structure AgentRunRow where
  id : Nat
  taskId : Nat
  provider : String
  model : Option String
  status : RunStatus
  output : Option String
  error : Option String
  completedAt : Option String
deriving DecidableEq, Repr

/-- The persistent store: the three tables the orchestrator touches, with
autoincrement counters for primary keys. -/
structure DB where
  repos : List RepoRow
  tasks : List TaskRow
  agentRuns : List AgentRunRow
  nextRepoId : Nat
  nextTaskId : Nat
  nextRunId : Nat
deriving DecidableEq, Repr

/-- The fields of a GitHub issue the orchestrator reads (github/types.ts). -/
structure GitHubIssue where
  number : Nat
  title : String
  body : Option String
deriving DecidableEq, Repr

/-- Agent configuration (engine/types.ts). -/
structure AgentConfig where
  provider : String
  model : Option String
  binary : Option String
  extraArgs : List String
  timeoutMs : Option Nat
deriving DecidableEq, Repr

/-- One watched repository entry (engine/types.ts). -/
structure RepoWatchConfig where
  owner : String
  repo : String
  label : String
  baseBranch : Option String
deriving DecidableEq, Repr

/-- Engine configuration (engine/types.ts). -/
structure EngineConfig where
  githubToken : String
  pollIntervalMs : Nat
  repos : List RepoWatchConfig
  agent : AgentConfig
  workDir : String

/-- Outcome of `spawnSync` as observed by `runAgent` (agent.ts): `error` is
set on spawn failure or timeout, `status` is the exit code (null when the
process was killed), and the captured streams are null exactly when the
process could not be spawned. -/
structure SpawnOutcome where
  error : Option String
  status : Option Int
  stdout : Option String
  stderr : Option String
deriving DecidableEq, Repr

/-- The structured result of `AgentRunner.run` (engine/types.ts). -/
structure AgentRunResult where
  success : Bool
  output : String
  error : Option String
  exitCode : Option Int
deriving DecidableEq, Repr

/-- The fields of a created pull request the orchestrator reads. -/
structure PullRequestInfo where
  number : Nat
  htmlUrl : String
deriving DecidableEq, Repr

/-- Input of `runAgent` (engine/types.ts). -/
structure AgentRunInput where
  taskId : Nat
  issueTitle : String
  issueBody : Option String
  repoDir : String
  branch : String
  config : AgentConfig

/-- Options of `createPullRequest` (github/types.ts). -/
structure CreatePullRequestOptions where
  owner : String
  repo : String
  title : String
  body : String
  head : String
  base : String

/-- Outcomes of the external collaborators for one poll cycle, keyed by the
arguments of each call.  An `Except.error` models the call throwing. -/
structure Env where
  now : String
  listIssues : String → String → String → Except String (List GitHubIssue)
  addIssueLabel : String → String → Nat → String → Except String Unit
  addIssueComment : String → String → Nat → String → Except String Unit
  cloneRepo : String → String → Except String Unit
  createBranch : String → String → String → Except String Unit
  checkoutBranch : String → String → Except String Unit
  spawnAgent : AgentRunInput → SpawnOutcome
  commitAndPush : String → String → String → Except String Unit
  createPullRequest : CreatePullRequestOptions → Except String PullRequestInfo

/-! ### agent.ts -/

/-- Embeds `[stdout, stderr].filter(Boolean).join('\n')` (agent.ts line 62). -/
def joinOutputs (stdout stderr : String) : String :=
  if stdout = "" then stderr
  else if stderr = "" then stdout
  else stdout ++ "\n" ++ stderr

/-- Rendering of `exitCode ?? 'null'` in template literals (agent.ts). -/
def exitCodeText : Option Int → String
  | none => "null"
  | some c => toString c

/-- The `maxBuffer` passed to `spawnSync` (agent.ts line 55): each captured
stream is truncated to at most this many bytes. -/
def maxBufferBytes : Nat := 10 * 1024 * 1024

/-- Embeds `runAgent` (agent.ts lines 43-90), as a function of the `spawnSync`
outcome.  The argument-list construction does not influence the returned
record and is left to the environment. -/
def runAgent (spawn : SpawnOutcome) : AgentRunResult :=
  let stdout := spawn.stdout.getD ("")
  let stderr := spawn.stderr.getD ("")
  let output := joinOutputs stdout stderr
  match spawn.error with
  | some msg => { success := false, output := output, error := some msg, exitCode := none }
  | none =>
    let exitCode := spawn.status
    if exitCode = some 0 then
      { success := true, output := output, error := none, exitCode := exitCode }
    else
      { success := false, output := output,
        error := some (if stderr = "" then ("Exit code " ++ exitCodeText exitCode) else stderr),
        exitCode := exitCode }

/-! ### Table operations (drizzle calls in orchestrator.ts) -/

/-- Embeds `db.select().from(tasks).where(eq(tasks.githubIssueId, issue.number)).limit(1).all()`
followed by taking the first row (orchestrator.ts lines 91-93).  Note the
filter is on `githubIssueId` alone. -/
def findExistingTask (db : DB) (issueNumber : Nat) : Option TaskRow :=
  (db.tasks.filter (fun t => decide (t.githubIssueId = some issueNumber))).head?

/-- Modelled from the spec: `findTaskByIssue(repo, issueNumber)` — lookup of
the existing Task by the `(repo, githubIssueId)` pair, as §4.1 step 1 and §6
describe it.  Used only to compare against the source's lookup. -/
def findTaskByRepoAndIssue (db : DB) (repoId issueNumber : Nat) : Option TaskRow :=
  (db.tasks.filter (fun t =>
    decide (t.repoId = some repoId) && decide (t.githubIssueId = some issueNumber))).head?

/-- Row transform of `update tasks set repoId, status='in_progress' where id`
(orchestrator.ts line 106). -/
def retryTask (taskId repoId : Nat) (t : TaskRow) : TaskRow :=
  if t.id = taskId then { t with repoId := some repoId, status := TaskStatus.in_progress } else t

/-- Row transform of `update tasks set status='failed' where id`
(orchestrator.ts line 298). -/
def failTask (taskId : Nat) (t : TaskRow) : TaskRow :=
  if t.id = taskId then { t with status := TaskStatus.failed } else t

/-- Row transform of `update tasks set prNumber, prUrl, status='completed'
where id` (orchestrator.ts lines 265-269). -/
def completeTask (taskId prN : Nat) (prU : String) (t : TaskRow) : TaskRow :=
  if t.id = taskId then
    { t with status := TaskStatus.completed, prNumber := some prN, prUrl := some prU }
  else t

/-- Row transform of `update agentRuns set completedAt, error, status='failed'
where id` (orchestrator.ts lines 299-303). -/
def failRun (runId : Nat) (err now : String) (r : AgentRunRow) : AgentRunRow :=
  if r.id = runId then
    { r with status := RunStatus.failed, error := some err, completedAt := some now }
  else r

/-- Row transform of `update agentRuns set completedAt, output,
status='completed' where id` (orchestrator.ts lines 270-274). -/
def completeRun (runId : Nat) (out now : String) (r : AgentRunRow) : AgentRunRow :=
  if r.id = runId then
    { r with status := RunStatus.completed, output := some out, completedAt := some now }
  else r

def setTaskRetry (db : DB) (taskId repoId : Nat) : DB :=
  { db with tasks := db.tasks.map (retryTask taskId repoId) }

def setTaskFailed (db : DB) (taskId : Nat) : DB :=
  { db with tasks := db.tasks.map (failTask taskId) }

def setTaskCompleted (db : DB) (taskId prN : Nat) (prU : String) : DB :=
  { db with tasks := db.tasks.map (completeTask taskId prN prU) }

def setRunFailed (db : DB) (runId : Nat) (err now : String) : DB :=
  { db with agentRuns := db.agentRuns.map (failRun runId err now) }

def setRunCompleted (db : DB) (runId : Nat) (out now : String) : DB :=
  { db with agentRuns := db.agentRuns.map (completeRun runId out now) }

/-- The task row inserted by `handleIssue` (orchestrator.ts lines 109-119):
created directly with status `in_progress`. -/
def newTaskRow (db : DB) (issue : GitHubIssue) (repoId : Nat) : TaskRow :=
  { id := db.nextTaskId, title := issue.title, description := issue.body,
    githubIssueId := some issue.number, repoId := some repoId,
    status := TaskStatus.in_progress, prNumber := none, prUrl := none }

/-- Embeds `insert into tasks ... returning id` (orchestrator.ts lines 109-121). -/
def insertTask (db : DB) (issue : GitHubIssue) (repoId : Nat) : Nat × DB :=
  (db.nextTaskId,
   { db with tasks := db.tasks ++ [newTaskRow db issue repoId],
             nextTaskId := db.nextTaskId + 1 })

/-- The agent-run row inserted by `createAgentRun` (orchestrator.ts lines
164-176): created with status `running`. -/
def newAgentRunRow (cfg : EngineConfig) (id taskId : Nat) : AgentRunRow :=
  { id := id, taskId := taskId, provider := cfg.agent.provider,
    model := cfg.agent.model, status := RunStatus.running,
    output := none, error := none, completedAt := none }

/-- Embeds `createAgentRun` (orchestrator.ts lines 164-176). -/
def createAgentRun (cfg : EngineConfig) (db : DB) (taskId : Nat) : Nat × DB :=
  (db.nextRunId,
   { db with agentRuns := db.agentRuns ++ [newAgentRunRow cfg db.nextRunId taskId],
             nextRunId := db.nextRunId + 1 })

/-! ### Strings built by the orchestrator -/

/-- The branch name `loom/issue-<n>` (orchestrator.ts line 180). -/
def branchNameOf (n : Nat) : String :=
  "loom/issue-" ++ Nat.repr n

/-- The per-task workspace directory basename `owner-repo-issueNumber`
(orchestrator.ts line 181). -/
def workDirNameOf (owner repo : String) (n : Nat) : String :=
  owner ++ "-" ++ repo ++ "-" ++ Nat.repr n

/-- Embeds `join(workDir, base)` (node:path, forward-slash platform). -/
def pathJoin (a b : String) : String := a ++ "/" ++ b

/-- The authenticated clone URL (orchestrator.ts line 184). -/
def cloneUrlOf (token owner repo : String) : String :=
  "https://" ++ token ++ "@github.com/" ++ owner ++ "/" ++ repo ++ ".git"

/-- The conventional commit message (orchestrator.ts line 239). -/
def commitMessageOf (n : Nat) : String :=
  "fix: resolve issue #" ++ Nat.repr n ++ " via loom\n\nCloses #" ++ Nat.repr n

/-- The PR title (orchestrator.ts line 259). -/
def prTitleOf (issue : GitHubIssue) : String :=
  "fix: " ++ issue.title ++ " (#" ++ Nat.repr issue.number ++ ")"

/-- The PR body with the truncated agent-output excerpt (orchestrator.ts
lines 244-255); `output.slice(0, 3000)` bounds the excerpt. -/
def prBodyOf (issue : GitHubIssue) (out : String) : String :=
  "This PR was automatically generated by Loom to resolve issue #" ++ Nat.repr issue.number
    ++ ".\n\n**Issue:** " ++ issue.title
    ++ "\n\n**Agent output:**\n```\n" ++ out.take 3000
    ++ "\n```\n\nCloses #" ++ Nat.repr issue.number

/-- The progress comment posted at dispatch (orchestrator.ts line 135). -/
def workingCommentOf (taskId : Nat) : String :=
  "Loom is working on this issue (task #" ++ Nat.repr taskId ++ "). A PR will follow."

/-! ### Orchestrator pipeline (orchestrator.ts) -/

/-- Embeds `prepareBranch` (orchestrator.ts lines 190-203): the remote
`createBranch` call is wrapped in `try`/`catch` with an empty handler —
"Branch may already exist" — then `checkoutBranch(repoDir, branch, true)`
runs unconditionally and its error propagates. -/
def prepareBranch (env : Env) (rc : RepoWatchConfig) (branch repoDir : String) :
    Except String Unit :=
  match env.createBranch rc.owner rc.repo branch with
  | Except.ok _ => env.checkoutBranch repoDir branch
  | Except.error _ => env.checkoutBranch repoDir branch

/-- Embeds `executeAgent` (orchestrator.ts lines 205-225): a non-success result is
turned into a thrown error with `result.error ?? 'Agent exited with code …'`. -/
def executeAgent (env : Env) (cfg : EngineConfig) (issue : GitHubIssue)
    (repoDir branch : String) (taskId : Nat) : Except String String :=
  let result := runAgent (env.spawnAgent
    { taskId := taskId, issueTitle := issue.title, issueBody := issue.body,
      repoDir := repoDir, branch := branch, config := cfg.agent })
  if result.success then Except.ok result.output
  else Except.error (result.error.getD ("Agent exited with code " ++ exitCodeText result.exitCode))

/-- Embeds `submitPullRequest` (orchestrator.ts lines 227-283).  The closing issue
comment is best-effort (`try`/`catch` with empty handler), so its outcome is
discarded.  A commit/push or PR-creation error is returned to the caller's
`catch`. -/
def submitPullRequest (env : Env) (cfg : EngineConfig) (out : String)
    (issue : GitHubIssue) (rc : RepoWatchConfig) (branch : String)
    (taskId runId : Nat) (db : DB) : DB × Option String :=
  let repoDir := pathJoin cfg.workDir (workDirNameOf rc.owner rc.repo issue.number)
  match env.commitAndPush repoDir (commitMessageOf issue.number) branch with
  | Except.error e => (db, some e)
  | Except.ok _ =>
    match env.createPullRequest
        { owner := rc.owner, repo := rc.repo, title := prTitleOf issue,
          body := prBodyOf issue out, head := branch,
          base := rc.baseBranch.getD ("main") } with
    | Except.error e => (db, some e)
    | Except.ok pr =>
      let db1 := setTaskCompleted db taskId pr.number pr.htmlUrl
      let db2 := setRunCompleted db1 runId out env.now
      let _done := env.addIssueComment rc.owner rc.repo issue.number
        ("Done! PR opened: " ++ pr.htmlUrl)
      (db2, none)

/-- Embeds `recordFailure` (orchestrator.ts lines 285-308): marks the Task and the
AgentRun `failed`; the failure comment is fire-and-forget
(`void ….catch(() => \x7b\x7d)`), so its outcome is discarded. -/
def recordFailure (env : Env) (db : DB) (taskId runId : Nat) (errMsg : String)
    (issue : GitHubIssue) (rc : RepoWatchConfig) : DB :=
  let db1 := setTaskFailed db taskId
  let db2 := setRunFailed db1 runId errMsg env.now
  let _c := env.addIssueComment rc.owner rc.repo issue.number
    ("Loom failed to process this issue: " ++ errMsg)
  db2

/-- Embeds `runAgentForTask` (orchestrator.ts lines 145-162): creates the AgentRun,
then runs workspace preparation, branch setup, agent invocation and PR
submission inside one `try`; any error lands in `recordFailure`. -/
def runAgentForTask (env : Env) (cfg : EngineConfig) (db : DB) (taskId : Nat)
    (issue : GitHubIssue) (rc : RepoWatchConfig) : DB :=
  let created := createAgentRun cfg db taskId
  let runId := created.1
  let db1 := created.2
  let branch := branchNameOf issue.number
  let repoDir := pathJoin cfg.workDir (workDirNameOf rc.owner rc.repo issue.number)
  match env.cloneRepo (cloneUrlOf cfg.githubToken rc.owner rc.repo) repoDir with
  | Except.error e => recordFailure env db1 taskId runId e issue rc
  | Except.ok _ =>
    match prepareBranch env rc branch repoDir with
    | Except.error e => recordFailure env db1 taskId runId e issue rc
    | Except.ok _ =>
      match executeAgent env cfg issue repoDir branch taskId with
      | Except.error e => recordFailure env db1 taskId runId e issue rc
      | Except.ok out =>
        match submitPullRequest env cfg out issue rc branch taskId runId db1 with
        | (db2, some e) => recordFailure env db2 taskId runId e issue rc
        | (db2, none) => db2

/-- The skip test of orchestrator.ts lines 94-100: an existing task in
`in_progress` or `completed` short-circuits the issue. -/
def taskIsActive : Option TaskRow → Bool
  | some t => decide (t.status = TaskStatus.in_progress) || decide (t.status = TaskStatus.completed)
  | none => false

/-- The create-or-retry decision of orchestrator.ts lines 103-123, reached
only when the skip test failed: a `failed` existing task is reused with its
status reset, anything else (no task, or a stray `todo` row) gets a fresh
insert. -/
def reconcileTask (db : DB) (issue : GitHubIssue) (repoRec : RepoRow) : Nat × DB :=
  match findExistingTask db issue.number with
  | some t =>
    if t.status = TaskStatus.failed then (t.id, setTaskRetry db t.id repoRec.id)
    else insertTask db issue repoRec.id
  | none => insertTask db issue repoRec.id

/-- Embeds `handleIssue` (orchestrator.ts lines 83-143).  The working label and the
progress comment are both wrapped in `try`/`catch` with empty handlers, so
their outcomes are discarded; dispatch then always reaches
`runAgentForTask`. -/
def handleIssue (env : Env) (cfg : EngineConfig) (issue : GitHubIssue)
    (repoRec : RepoRow) (rc : RepoWatchConfig) (db : DB) : DB :=
  if taskIsActive (findExistingTask db issue.number) then db
  else
    let rec0 := reconcileTask db issue repoRec
    let _lbl := env.addIssueLabel rc.owner rc.repo issue.number ("loom:working")
    let _cmt := env.addIssueComment rc.owner rc.repo issue.number (workingCommentOf rec0.1)
    runAgentForTask env cfg rec0.2 rec0.1 issue rc

/-- Modelled from the spec: `handleIssue` as §4.1 describes it, with step 1's
lookup keyed by the `(repo, githubIssueId)` pair instead of the source's
`githubIssueId`-only filter.  Identical to `handleIssue` otherwise; used only
to exhibit the difference. -/
def handleIssueSpecLookup (env : Env) (cfg : EngineConfig) (issue : GitHubIssue)
    (repoRec : RepoRow) (rc : RepoWatchConfig) (db : DB) : DB :=
  if taskIsActive (findTaskByRepoAndIssue db repoRec.id issue.number) then db
  else
    let rec0 :=
      match findTaskByRepoAndIssue db repoRec.id issue.number with
      | some t =>
        if t.status = TaskStatus.failed then (t.id, setTaskRetry db t.id repoRec.id)
        else insertTask db issue repoRec.id
      | none => insertTask db issue repoRec.id
    let _lbl := env.addIssueLabel rc.owner rc.repo issue.number ("loom:working")
    let _cmt := env.addIssueComment rc.owner rc.repo issue.number (workingCommentOf rec0.1)
    runAgentForTask env cfg rec0.2 rec0.1 issue rc

/-- Embeds `upsertRepo` (orchestrator.ts lines 310-328): select rows with the
config's owner, find the one with the config's name, return it unchanged if
present, otherwise insert. -/
def upsertRepo (db : DB) (rc : RepoWatchConfig) : RepoRow × DB :=
  let sameOwner := db.repos.filter (fun r => decide (r.owner = rc.owner))
  match sameOwner.find? (fun r => decide (r.name = rc.repo)) with
  | some r => (r, db)
  | none =>
    let r : RepoRow :=
      { id := db.nextRepoId, owner := rc.owner, name := rc.repo,
        githubUrl := "https://github.com/" ++ rc.owner ++ "/" ++ rc.repo,
        watchLabel := rc.label }
    (r, { db with repos := db.repos ++ [r], nextRepoId := db.nextRepoId + 1 })

/-- The issue loop of `processRepo` (orchestrator.ts lines 78-80): issues are
handled sequentially with the store threaded through; `handleIssue` itself
never throws (its pipeline catches internally). -/
def processIssues (env : Env) (cfg : EngineConfig) (rc : RepoWatchConfig)
    (repoRec : RepoRow) (db : DB) (issues : List GitHubIssue) : DB :=
  issues.foldl (fun d i => handleIssue env cfg i repoRec rc d) db

/-- Embeds `processRepo` (orchestrator.ts lines 70-81): upserts the repo row first;
a listing error then escapes to `poll`'s catch with the upsert already
persisted. -/
def processRepo (env : Env) (cfg : EngineConfig) (rc : RepoWatchConfig)
    (db : DB) : DB × Option String :=
  let up := upsertRepo db rc
  match env.listIssues rc.owner rc.repo rc.label with
  | Except.error e => (up.2, some e)
  | Except.ok issues => (processIssues env cfg rc up.1 up.2 issues, none)

/-- The repo loop of `poll` (orchestrator.ts lines 57-68): each repository is
processed inside `try`/`catch`, so a repo-level error is dropped and the
loop continues with the next configured repository. -/
def pollRepos (env : Env) (cfg : EngineConfig) (rcs : List RepoWatchConfig)
    (db : DB) : DB :=
  rcs.foldl (fun d rc => (processRepo env cfg rc d).1) db

/-- Embeds `poll` (orchestrator.ts lines 57-68). -/
def poll (env : Env) (cfg : EngineConfig) (db : DB) : DB :=
  pollRepos env cfg cfg.repos db

/-! ### Derived observations -/

/-- The primary keys of the task rows, in table order. -/
def taskIds (db : DB) : List Nat := db.tasks.map (fun t => t.id)

/-- The `githubIssueId` column of the task rows, in table order. -/
def taskIssueIds (db : DB) : List (Option Nat) := db.tasks.map (fun t => t.githubIssueId)

/-! ### Concrete fixtures for witnesses and counterexamples -/

/-- An environment in which every external call succeeds. -/
def okEnv : Env :=
  { now := "2026-01-01T00:00:00Z"
    listIssues := fun _ _ _ => Except.ok []
    addIssueLabel := fun _ _ _ _ => Except.ok ()
    addIssueComment := fun _ _ _ _ => Except.ok ()
    cloneRepo := fun _ _ => Except.ok ()
    createBranch := fun _ _ _ => Except.ok ()
    checkoutBranch := fun _ _ => Except.ok ()
    spawnAgent := fun _ => { error := none, status := some 0, stdout := some ("done"), stderr := some ("") }
    commitAndPush := fun _ _ _ => Except.ok ()
    createPullRequest := fun _ =>
      Except.ok { number := 5, htmlUrl := "https://github.com/octo/alpha/pull/5" } }

def emptyDB : DB :=
  { repos := [], tasks := [], agentRuns := [],
    nextRepoId := 1, nextTaskId := 1, nextRunId := 1 }

def agent0 : AgentConfig :=
  { provider := "claude", model := none, binary := none, extraArgs := [], timeoutMs := none }

def rcA : RepoWatchConfig := { owner := "octo", repo := "alpha", label := "loom", baseBranch := none }

def rcB : RepoWatchConfig := { owner := "octo", repo := "beta", label := "loom", baseBranch := none }

def cfg0 : EngineConfig :=
  { githubToken := "tok", pollIntervalMs := 60000, repos := [rcA, rcB],
    agent := agent0, workDir := "/tmp/loom-agent" }

def issue42 : GitHubIssue := { number := 42, title := "fix the bug", body := some ("details") }

def issue7 : GitHubIssue := { number := 7, title := "first", body := none }

def issue8 : GitHubIssue := { number := 8, title := "second", body := none }

def repoRow1 : RepoRow :=
  { id := 1, owner := "octo", name := "alpha",
    githubUrl := "https://github.com/octo/alpha", watchLabel := "old-label" }

def repoRow2 : RepoRow :=
  { id := 2, owner := "octo", name := "beta",
    githubUrl := "https://github.com/octo/beta", watchLabel := "loom" }

/-- A task row for issue 42 owned by repo 1, already completed. -/
def doneTask42 : TaskRow :=
  { id := 7, title := "fix the bug", description := none, githubIssueId := some 42,
    repoId := some 1, status := TaskStatus.completed, prNumber := some 3,
    prUrl := some ("https://github.com/octo/alpha/pull/3") }

/-- A task row for issue 42 owned by repo 1, in the failed state. -/
def failedTask42 : TaskRow :=
  { id := 7, title := "fix the bug", description := none, githubIssueId := some 42,
    repoId := some 1, status := TaskStatus.failed, prNumber := none, prUrl := none }

/-- Store state: repos 1 and 2 exist, issue 42 already has a completed task
bound to repo 1. -/
def cexDb : DB :=
  { repos := [repoRow1, repoRow2], tasks := [doneTask42], agentRuns := [],
    nextRepoId := 3, nextTaskId := 8, nextRunId := 1 }

/-- Store state: repo 1 exists and issue 42's task is failed. -/
def retryDb : DB :=
  { repos := [repoRow1], tasks := [failedTask42], agentRuns := [],
    nextRepoId := 2, nextTaskId := 8, nextRunId := 4 }

/-- Environment for the isolation scenario: listing fails for repo `alpha`,
repo `beta` lists issues 7 and 8, and the clone for issue 7's workspace
fails; everything else succeeds. -/
def mixEnv : Env :=
  { okEnv with
    listIssues := fun _ r _ =>
      if r = "alpha" then Except.error ("listing failed") else Except.ok [issue7, issue8]
    cloneRepo := fun _ d =>
      if d = pathJoin cfg0.workDir (workDirNameOf ("octo") ("beta") 7) then
        Except.error ("clone failed")
      else Except.ok () }

/-- Environment in which the notification calls (label, comment) fail. -/
def noisyEnv : Env :=
  { okEnv with
    addIssueLabel := fun _ _ _ _ => Except.error ("label missing")
    addIssueComment := fun _ _ _ _ => Except.error ("comment rejected") }

/-- Spawn outcome: stdout `a`, stderr `b`, exit 0. -/
def abSpawn : SpawnOutcome :=
  { error := none, status := some 0, stdout := some ("a"), stderr := some ("b") }

/-- Spawn outcome: timeout. -/
def timeoutSpawn : SpawnOutcome :=
  { error := some ("spawnSync claude ETIMEDOUT"), status := none, stdout := none, stderr := none }

/-- Spawn outcome: non-zero exit. -/
def exit1Spawn : SpawnOutcome :=
  { error := none, status := some 1, stdout := some (""), stderr := some ("boom") }

/-- Spawn outcome: clean exit 0. -/
def okSpawn : SpawnOutcome :=
  { error := none, status := some 0, stdout := some ("done"), stderr := some ("") }

/-! ## Toolbox: decimal representations and separator splitting -/

theorem toDigitsCore_acc (b : Nat) : ∀ (f n : Nat) (ds : List Char),
    Nat.toDigitsCore b f n ds = Nat.toDigitsCore b f n [] ++ ds := by
  intro f
  induction f with
  | zero => intro n ds; simp [Nat.toDigitsCore]
  | succ f ih =>
    intro n ds
    simp only [Nat.toDigitsCore]
    by_cases h : n / b = 0
    · simp [h]
    · simp only [h, if_false]
      rw [ih (n / b) [Nat.digitChar (n % b)], ih (n / b) (Nat.digitChar (n % b) :: ds)]
      simp

theorem toDigitsCore_fuel : ∀ (n f g : Nat), n < f → n < g →
    Nat.toDigitsCore 10 f n [] = Nat.toDigitsCore 10 g n [] := by
  intro n
  induction n using Nat.strong_induction_on with
  | _ n ih =>
    intro f g hf hg
    match f, g with
    | f + 1, g + 1 =>
      simp only [Nat.toDigitsCore]
      by_cases h : n / 10 = 0
      · simp [h]
      · simp only [h, if_false]
        rw [toDigitsCore_acc 10 f (n / 10) [Nat.digitChar (n % 10)],
            toDigitsCore_acc 10 g (n / 10) [Nat.digitChar (n % 10)]]
        have hlt : n / 10 < n := by omega
        rw [ih (n / 10) hlt f g (by omega) (by omega)]

theorem toDigits_ten (n : Nat) :
    Nat.toDigits 10 n =
      if n < 10 then [Nat.digitChar n]
      else Nat.toDigits 10 (n / 10) ++ [Nat.digitChar (n % 10)] := by
  show Nat.toDigitsCore 10 (n + 1) n [] = _
  by_cases h : n < 10
  · simp only [h, if_true]
    unfold Nat.toDigitsCore
    simp [Nat.div_eq_of_lt h, Nat.mod_eq_of_lt h]
  · simp only [h, if_false]
    unfold Nat.toDigitsCore
    have hd : ¬ n / 10 = 0 := by omega
    simp only [hd, if_false]
    rw [toDigitsCore_acc 10 n (n / 10) [Nat.digitChar (n % 10)]]
    congr 1
    exact toDigitsCore_fuel (n / 10) n (n / 10 + 1) (by omega) (by omega)

theorem digitChar_lt_ne_dash : ∀ (k : Nat), k < 10 → Nat.digitChar k ≠ '-' := by
  have h : ∀ a : Fin 10, Nat.digitChar a.val ≠ '-' := by decide
  intro k hk
  exact h ⟨k, hk⟩

theorem toDigits_ten_no_dash (n : Nat) : '-' ∉ Nat.toDigits 10 n := by
  induction n using Nat.strong_induction_on with
  | _ n ih =>
    rw [toDigits_ten n]
    by_cases h : n < 10
    · simp only [h, if_true, List.mem_singleton]
      exact fun hc => digitChar_lt_ne_dash n h hc.symm
    · simp only [h, if_false, List.mem_append, List.mem_singleton]
      rintro (hc | hc)
      · exact ih (n / 10) (by omega) hc
      · exact digitChar_lt_ne_dash (n % 10) (by omega) hc.symm

theorem toDigits_ten_ne_nil (n : Nat) : Nat.toDigits 10 n ≠ [] := by
  rw [toDigits_ten n]
  by_cases h : n < 10 <;> simp [h]

theorem digitChar_lt_inj : ∀ (a b : Nat), a < 10 → b < 10 →
    Nat.digitChar a = Nat.digitChar b → a = b := by
  have h : ∀ a : Fin 10, ∀ b : Fin 10, Nat.digitChar a.val = Nat.digitChar b.val → a = b := by
    decide
  intro a b ha hb hab
  have := h ⟨a, ha⟩ ⟨b, hb⟩ hab
  exact congrArg Fin.val this

theorem toDigits_ten_inj : ∀ (n m : Nat), Nat.toDigits 10 n = Nat.toDigits 10 m → n = m := by
  intro n
  induction n using Nat.strong_induction_on with
  | _ n ih =>
    intro m h
    rw [toDigits_ten n, toDigits_ten m] at h
    by_cases hn : n < 10 <;> by_cases hm : m < 10
    · simp only [hn, hm, if_true] at h
      exact digitChar_lt_inj n m hn hm (List.singleton_inj.mp h)
    · simp only [hn, hm, if_true, if_false] at h
      exfalso
      apply toDigits_ten_ne_nil (m / 10)
      have hlen := congrArg List.length h
      simp only [List.length_singleton, List.length_append] at hlen
      exact List.eq_nil_of_length_eq_zero (by omega)
    · simp only [hn, hm, if_true, if_false] at h
      exfalso
      apply toDigits_ten_ne_nil (n / 10)
      have hlen := congrArg List.length h
      simp only [List.length_singleton, List.length_append] at hlen
      exact List.eq_nil_of_length_eq_zero (by omega)
    · simp only [hn, hm, if_false] at h
      have hsplit := List.append_inj' h (by simp)
      have hdiv : n / 10 = m / 10 := ih (n / 10) (by omega) (m / 10) hsplit.1
      have hmod : n % 10 = m % 10 :=
        digitChar_lt_inj _ _ (by omega) (by omega) (List.singleton_inj.mp hsplit.2)
      omega

theorem nat_repr_inj (n m : Nat) (h : Nat.repr n = Nat.repr m) : n = m := by
  apply toDigits_ten_inj
  have hd : (Nat.repr n).data = (Nat.repr m).data := by rw [h]
  exact hd

theorem nat_repr_no_dash (n : Nat) : '-' ∉ (Nat.repr n).data := toDigits_ten_no_dash n

theorem sep_split_left (sep : Char) : ∀ (xs ys : List Char) (as bs : List Char),
    sep ∉ xs → sep ∉ ys → xs ++ sep :: as = ys ++ sep :: bs → xs = ys ∧ as = bs := by
  intro xs
  induction xs with
  | nil =>
    intro ys as bs _ hy h
    cases ys with
    | nil => simpa using h
    | cons c ys =>
      simp only [List.nil_append, List.cons_append, List.cons.injEq] at h
      exact absurd (h.1 ▸ List.mem_cons_self c ys) hy
  | cons a xs ih =>
    intro ys as bs hx hy h
    cases ys with
    | nil =>
      simp only [List.nil_append, List.cons_append, List.cons.injEq] at h
      exact absurd (h.1.symm ▸ List.mem_cons_self a xs) hx
    | cons c ys =>
      simp only [List.cons_append, List.cons.injEq] at h
      have hx' : sep ∉ xs := fun hc => hx (List.mem_cons_of_mem a hc)
      have hy' : sep ∉ ys := fun hc => hy (List.mem_cons_of_mem c hc)
      obtain ⟨hh, ht⟩ := ih ys as bs hx' hy' h.2
      exact ⟨by rw [h.1, hh], ht⟩

theorem sep_split_right (sep : Char) (xs ys as bs : List Char)
    (ha : sep ∉ as) (hb : sep ∉ bs) (h : xs ++ sep :: as = ys ++ sep :: bs) :
    xs = ys ∧ as = bs := by
  have hr : as.reverse ++ sep :: xs.reverse = bs.reverse ++ sep :: ys.reverse := by
    have hrev := congrArg List.reverse h
    simpa [List.reverse_append] using hrev
  have ha' : sep ∉ as.reverse := by simpa using ha
  have hb' : sep ∉ bs.reverse := by simpa using hb
  obtain ⟨hh, ht⟩ := sep_split_left sep as.reverse bs.reverse xs.reverse ys.reverse ha' hb' hr
  constructor
  · have := congrArg List.reverse ht; simpa using this
  · have := congrArg List.reverse hh; simpa using this

theorem workDirNameOf_data (o r : String) (n : Nat) :
    (workDirNameOf o r n).data = o.data ++ '-' :: (r.data ++ '-' :: (Nat.repr n).data) := by
  simp [workDirNameOf, String.data_append, List.append_assoc]

/-! ## Row-transform facts -/

theorem failTask_id (tid : Nat) (t : TaskRow) : (failTask tid t).id = t.id := by
  unfold failTask; split <;> rfl

theorem failTask_issueId (tid : Nat) (t : TaskRow) :
    (failTask tid t).githubIssueId = t.githubIssueId := by
  unfold failTask; split <;> rfl

theorem failTask_self (tid : Nat) (t : TaskRow) (h : t.id = tid) :
    (failTask tid t).status = TaskStatus.failed := by
  unfold failTask; rw [if_pos h]

theorem failTask_other (tid : Nat) (t : TaskRow) (h : t.id ≠ tid) : failTask tid t = t := by
  unfold failTask; rw [if_neg h]

theorem completeTask_id (tid prN : Nat) (prU : String) (t : TaskRow) :
    (completeTask tid prN prU t).id = t.id := by
  unfold completeTask; split <;> rfl

theorem completeTask_issueId (tid prN : Nat) (prU : String) (t : TaskRow) :
    (completeTask tid prN prU t).githubIssueId = t.githubIssueId := by
  unfold completeTask; split <;> rfl

theorem completeTask_self (tid prN : Nat) (prU : String) (t : TaskRow) (h : t.id = tid) :
    (completeTask tid prN prU t).status = TaskStatus.completed := by
  unfold completeTask; rw [if_pos h]

theorem completeTask_other (tid prN : Nat) (prU : String) (t : TaskRow) (h : t.id ≠ tid) :
    completeTask tid prN prU t = t := by
  unfold completeTask; rw [if_neg h]

theorem retryTask_id (tid rid : Nat) (t : TaskRow) : (retryTask tid rid t).id = t.id := by
  unfold retryTask; split <;> rfl

theorem retryTask_issueId (tid rid : Nat) (t : TaskRow) :
    (retryTask tid rid t).githubIssueId = t.githubIssueId := by
  unfold retryTask; split <;> rfl

theorem retryTask_self (tid rid : Nat) (t : TaskRow) (h : t.id = tid) :
    (retryTask tid rid t).status = TaskStatus.in_progress := by
  unfold retryTask; rw [if_pos h]

theorem failRun_id (rid : Nat) (e now : String) (r : AgentRunRow) : (failRun rid e now r).id = r.id := by
  unfold failRun; split <;> rfl

theorem failRun_taskId (rid : Nat) (e now : String) (r : AgentRunRow) :
    (failRun rid e now r).taskId = r.taskId := by
  unfold failRun; split <;> rfl

theorem failRun_self (rid : Nat) (e now : String) (r : AgentRunRow) (h : r.id = rid) :
    (failRun rid e now r).status = RunStatus.failed := by
  unfold failRun; rw [if_pos h]

theorem completeRun_id (rid : Nat) (out now : String) (r : AgentRunRow) :
    (completeRun rid out now r).id = r.id := by
  unfold completeRun; split <;> rfl

theorem completeRun_taskId (rid : Nat) (out now : String) (r : AgentRunRow) :
    (completeRun rid out now r).taskId = r.taskId := by
  unfold completeRun; split <;> rfl

theorem completeRun_self (rid : Nat) (out now : String) (r : AgentRunRow) (h : r.id = rid) :
    (completeRun rid out now r).status = RunStatus.completed := by
  unfold completeRun; rw [if_pos h]

/-! ## Pipeline shape -/

/-- Evaluates `recordFailure` right after `createAgentRun`, field by field. -/
theorem recordFailure_after_create (env : Env) (cfg : EngineConfig) (db : DB)
    (taskId : Nat) (e : String) (issue : GitHubIssue) (rc : RepoWatchConfig) :
    recordFailure env (createAgentRun cfg db taskId).2 taskId (createAgentRun cfg db taskId).1
        e issue rc =
      { repos := db.repos,
        tasks := db.tasks.map (failTask taskId),
        agentRuns := (db.agentRuns ++ [newAgentRunRow cfg db.nextRunId taskId]).map
          (failRun db.nextRunId e env.now),
        nextRepoId := db.nextRepoId, nextTaskId := db.nextTaskId,
        nextRunId := db.nextRunId + 1 } := rfl

/-- Shows `submitPullRequest` either leaves the store untouched and reports the
error of the push or of the PR creation, or closes the Task and the AgentRun
as completed. -/
theorem submitPullRequest_cases (env : Env) (cfg : EngineConfig) (out : String)
    (issue : GitHubIssue) (rc : RepoWatchConfig) (branch : String)
    (taskId runId : Nat) (db : DB) :
    (∃ e, submitPullRequest env cfg out issue rc branch taskId runId db = (db, some e)) ∨
    (∃ prN prU, submitPullRequest env cfg out issue rc branch taskId runId db =
      (setRunCompleted (setTaskCompleted db taskId prN prU) runId out env.now, none)) := by
  unfold submitPullRequest
  dsimp only
  cases env.commitAndPush (pathJoin cfg.workDir (workDirNameOf rc.owner rc.repo issue.number))
      (commitMessageOf issue.number) branch with
  | error e => exact Or.inl ⟨e, rfl⟩
  | ok u =>
    cases env.createPullRequest
        { owner := rc.owner, repo := rc.repo, title := prTitleOf issue,
          body := prBodyOf issue out, head := branch,
          base := rc.baseBranch.getD ("main") } with
    | error e => exact Or.inl ⟨e, rfl⟩
    | ok pr => exact Or.inr ⟨pr.number, pr.htmlUrl, rfl⟩

/-- Whatever the external outcomes, `runAgentForTask` maps every task row
through a transform that fixes id and `githubIssueId`, drives the rows with
the given task id to a terminal status and leaves all other rows untouched;
it appends exactly one agent-run row, created `running` and driven to a
terminal status; and it never touches the `repos` table or the other
counters. -/
theorem runAgentForTask_shape (env : Env) (cfg : EngineConfig) (db : DB)
    (taskId : Nat) (issue : GitHubIssue) (rc : RepoWatchConfig) :
    ∃ f g,
      (runAgentForTask env cfg db taskId issue rc).tasks = db.tasks.map f ∧
      (runAgentForTask env cfg db taskId issue rc).agentRuns
        = (db.agentRuns ++ [newAgentRunRow cfg db.nextRunId taskId]).map g ∧
      (runAgentForTask env cfg db taskId issue rc).repos = db.repos ∧
      (runAgentForTask env cfg db taskId issue rc).nextTaskId = db.nextTaskId ∧
      (runAgentForTask env cfg db taskId issue rc).nextRepoId = db.nextRepoId ∧
      (runAgentForTask env cfg db taskId issue rc).nextRunId = db.nextRunId + 1 ∧
      (∀ t, (f t).id = t.id) ∧ (∀ t, (f t).githubIssueId = t.githubIssueId) ∧
      (∀ t, t.id = taskId →
        (f t).status = TaskStatus.completed ∨ (f t).status = TaskStatus.failed) ∧
      (∀ t, t.id ≠ taskId → f t = t) ∧
      (∀ r, (g r).id = r.id) ∧ (∀ r, (g r).taskId = r.taskId) ∧
      (∀ r, r.id = db.nextRunId →
        (g r).status = RunStatus.completed ∨ (g r).status = RunStatus.failed) := by
  unfold runAgentForTask
  dsimp only
  cases env.cloneRepo (cloneUrlOf cfg.githubToken rc.owner rc.repo)
      (pathJoin cfg.workDir (workDirNameOf rc.owner rc.repo issue.number)) with
  | error e =>
    refine ⟨failTask taskId, failRun db.nextRunId e env.now,
      rfl, rfl, rfl, rfl, rfl, rfl,
      failTask_id taskId, failTask_issueId taskId,
      fun t ht => Or.inr (failTask_self taskId t ht), failTask_other taskId,
      failRun_id db.nextRunId e env.now, failRun_taskId db.nextRunId e env.now,
      fun r hr => Or.inr (failRun_self db.nextRunId e env.now r hr)⟩
  | ok u =>
    cases prepareBranch env rc (branchNameOf issue.number)
        (pathJoin cfg.workDir (workDirNameOf rc.owner rc.repo issue.number)) with
    | error e =>
      refine ⟨failTask taskId, failRun db.nextRunId e env.now,
        rfl, rfl, rfl, rfl, rfl, rfl,
        failTask_id taskId, failTask_issueId taskId,
        fun t ht => Or.inr (failTask_self taskId t ht), failTask_other taskId,
        failRun_id db.nextRunId e env.now, failRun_taskId db.nextRunId e env.now,
        fun r hr => Or.inr (failRun_self db.nextRunId e env.now r hr)⟩
    | ok v =>
      cases executeAgent env cfg issue
          (pathJoin cfg.workDir (workDirNameOf rc.owner rc.repo issue.number))
          (branchNameOf issue.number) taskId with
      | error e =>
        refine ⟨failTask taskId, failRun db.nextRunId e env.now,
          rfl, rfl, rfl, rfl, rfl, rfl,
          failTask_id taskId, failTask_issueId taskId,
          fun t ht => Or.inr (failTask_self taskId t ht), failTask_other taskId,
          failRun_id db.nextRunId e env.now, failRun_taskId db.nextRunId e env.now,
          fun r hr => Or.inr (failRun_self db.nextRunId e env.now r hr)⟩
      | ok out =>
        rcases submitPullRequest_cases env cfg out issue rc (branchNameOf issue.number)
            taskId (createAgentRun cfg db taskId).1 (createAgentRun cfg db taskId).2 with
          ⟨e, hsub⟩ | ⟨prN, prU, hsub⟩
        · dsimp only
          rw [hsub]
          refine ⟨failTask taskId, failRun db.nextRunId e env.now,
            rfl, rfl, rfl, rfl, rfl, rfl,
            failTask_id taskId, failTask_issueId taskId,
            fun t ht => Or.inr (failTask_self taskId t ht), failTask_other taskId,
            failRun_id db.nextRunId e env.now, failRun_taskId db.nextRunId e env.now,
            fun r hr => Or.inr (failRun_self db.nextRunId e env.now r hr)⟩
        · dsimp only
          rw [hsub]
          refine ⟨completeTask taskId prN prU, completeRun db.nextRunId out env.now,
            rfl, rfl, rfl, rfl, rfl, rfl,
            completeTask_id taskId prN prU, completeTask_issueId taskId prN prU,
            fun t ht => Or.inl (completeTask_self taskId prN prU t ht),
            completeTask_other taskId prN prU,
            completeRun_id db.nextRunId out env.now, completeRun_taskId db.nextRunId out env.now,
            fun r hr => Or.inl (completeRun_self db.nextRunId out env.now r hr)⟩

/-! ## Reconciliation facts -/

theorem findExistingTask_eq_none (db : DB) (n : Nat) :
    findExistingTask db n = none ↔ some n ∉ taskIssueIds db := by
  simp only [findExistingTask, taskIssueIds, List.head?_eq_none_iff, List.filter_eq_nil_iff,
    decide_eq_true_eq, List.mem_map]
  constructor
  · rintro h ⟨t, ht, hn⟩
    exact h t ht hn
  · intro h t ht hn
    exact h ⟨t, ht, hn⟩

theorem findExistingTask_some_mem (db : DB) (n : Nat) (t : TaskRow)
    (h : findExistingTask db n = some t) : t ∈ db.tasks ∧ t.githubIssueId = some n := by
  unfold findExistingTask at h
  have hopt : t ∈ (db.tasks.filter (fun u => decide (u.githubIssueId = some n))).head? := by
    rw [h]; exact Option.mem_def.mpr rfl
  have hm := List.mem_of_mem_head? hopt
  have hmf := List.mem_filter.mp hm
  exact ⟨hmf.1, of_decide_eq_true hmf.2⟩

theorem handleIssue_skip (env : Env) (cfg : EngineConfig) (issue : GitHubIssue)
    (repoRec : RepoRow) (rc : RepoWatchConfig) (db : DB)
    (h : taskIsActive (findExistingTask db issue.number) = true) :
    handleIssue env cfg issue repoRec rc db = db := by
  unfold handleIssue
  rw [if_pos h]

theorem handleIssue_dispatch (env : Env) (cfg : EngineConfig) (issue : GitHubIssue)
    (repoRec : RepoRow) (rc : RepoWatchConfig) (db : DB)
    (h : taskIsActive (findExistingTask db issue.number) = false) :
    handleIssue env cfg issue repoRec rc db =
      runAgentForTask env cfg (reconcileTask db issue repoRec).2
        (reconcileTask db issue repoRec).1 issue rc := by
  unfold handleIssue
  rw [if_neg (by simp [h])]

theorem reconcileTask_fresh (db : DB) (issue : GitHubIssue) (repoRec : RepoRow)
    (h : findExistingTask db issue.number = none) :
    reconcileTask db issue repoRec = insertTask db issue repoRec.id := by
  unfold reconcileTask
  rw [h]

theorem reconcileTask_failed (db : DB) (issue : GitHubIssue) (repoRec : RepoRow) (t : TaskRow)
    (hf : findExistingTask db issue.number = some t) (hs : t.status = TaskStatus.failed) :
    reconcileTask db issue repoRec = (t.id, setTaskRetry db t.id repoRec.id) := by
  unfold reconcileTask
  rw [hf]
  dsimp only
  rw [if_pos hs]

theorem map_proj_of_preserve {α β : Type} (f : α → α) (p : α → β)
    (hp : ∀ a, p (f a) = p a) : ∀ (l : List α), (l.map f).map p = l.map p := by
  intro l
  induction l with
  | nil => rfl
  | cons a l ih => simp [hp, ih]

theorem taskIds_runAgentForTask (env : Env) (cfg : EngineConfig) (db : DB)
    (taskId : Nat) (issue : GitHubIssue) (rc : RepoWatchConfig) :
    taskIds (runAgentForTask env cfg db taskId issue rc) = taskIds db := by
  obtain ⟨f, g, ht, _, _, _, _, _, hfid, _, _, _, _, _, _⟩ :=
    runAgentForTask_shape env cfg db taskId issue rc
  simp only [taskIds, ht]
  exact map_proj_of_preserve f _ hfid db.tasks

theorem taskIssueIds_runAgentForTask (env : Env) (cfg : EngineConfig) (db : DB)
    (taskId : Nat) (issue : GitHubIssue) (rc : RepoWatchConfig) :
    taskIssueIds (runAgentForTask env cfg db taskId issue rc) = taskIssueIds db := by
  obtain ⟨f, g, ht, _, _, _, _, _, _, hfissue, _, _, _, _, _⟩ :=
    runAgentForTask_shape env cfg db taskId issue rc
  simp only [taskIssueIds, ht]
  exact map_proj_of_preserve f _ hfissue db.tasks

theorem prepareBranch_eq (env : Env) (rc : RepoWatchConfig) (branch repoDir : String) :
    prepareBranch env rc branch repoDir = env.checkoutBranch repoDir branch := by
  unfold prepareBranch
  cases env.createBranch rc.owner rc.repo branch <;> rfl

theorem runAgentForTask_clone_error (env : Env) (cfg : EngineConfig) (db : DB)
    (taskId : Nat) (issue : GitHubIssue) (rc : RepoWatchConfig) (e : String)
    (h : env.cloneRepo (cloneUrlOf cfg.githubToken rc.owner rc.repo)
      (pathJoin cfg.workDir (workDirNameOf rc.owner rc.repo issue.number)) = Except.error e) :
    runAgentForTask env cfg db taskId issue rc =
      { repos := db.repos, tasks := db.tasks.map (failTask taskId),
        agentRuns := (db.agentRuns ++ [newAgentRunRow cfg db.nextRunId taskId]).map
          (failRun db.nextRunId e env.now),
        nextRepoId := db.nextRepoId, nextTaskId := db.nextTaskId,
        nextRunId := db.nextRunId + 1 } := by
  unfold runAgentForTask
  dsimp only
  rw [h]
  exact recordFailure_after_create env cfg db taskId e issue rc

theorem upsertRepo_tasks (db : DB) (rc : RepoWatchConfig) :
    (upsertRepo db rc).2.tasks = db.tasks := by
  unfold upsertRepo
  dsimp only
  cases (db.repos.filter (fun r => decide (r.owner = rc.owner))).find?
      (fun r => decide (r.name = rc.repo)) <;> rfl

theorem upsertRepo_agentRuns (db : DB) (rc : RepoWatchConfig) :
    (upsertRepo db rc).2.agentRuns = db.agentRuns := by
  unfold upsertRepo
  dsimp only
  cases (db.repos.filter (fun r => decide (r.owner = rc.owner))).find?
      (fun r => decide (r.name = rc.repo)) <;> rfl

theorem upsertRepo_nextTaskId (db : DB) (rc : RepoWatchConfig) :
    (upsertRepo db rc).2.nextTaskId = db.nextTaskId := by
  unfold upsertRepo
  dsimp only
  cases (db.repos.filter (fun r => decide (r.owner = rc.owner))).find?
      (fun r => decide (r.name = rc.repo)) <;> rfl

theorem upsertRepo_nextRunId (db : DB) (rc : RepoWatchConfig) :
    (upsertRepo db rc).2.nextRunId = db.nextRunId := by
  unfold upsertRepo
  dsimp only
  cases (db.repos.filter (fun r => decide (r.owner = rc.owner))).find?
      (fun r => decide (r.name = rc.repo)) <;> rfl

theorem upsertRepo_repos_ext (db : DB) (rc : RepoWatchConfig) :
    ∃ ext, (upsertRepo db rc).2.repos = db.repos ++ ext := by
  unfold upsertRepo
  dsimp only
  cases (db.repos.filter (fun r => decide (r.owner = rc.owner))).find?
      (fun r => decide (r.name = rc.repo)) with
  | none => exact ⟨_, rfl⟩
  | some r => exact ⟨[], by simp⟩

theorem reconcileTask_repos (db : DB) (issue : GitHubIssue) (repoRec : RepoRow) :
    (reconcileTask db issue repoRec).2.repos = db.repos := by
  unfold reconcileTask
  cases findExistingTask db issue.number with
  | none => rfl
  | some t =>
    dsimp only
    by_cases h : t.status = TaskStatus.failed
    · rw [if_pos h]; rfl
    · rw [if_neg h]; rfl

theorem repos_handleIssue (env : Env) (cfg : EngineConfig) (issue : GitHubIssue)
    (repoRec : RepoRow) (rc : RepoWatchConfig) (db : DB) :
    (handleIssue env cfg issue repoRec rc db).repos = db.repos := by
  by_cases h : taskIsActive (findExistingTask db issue.number) = true
  · rw [handleIssue_skip env cfg issue repoRec rc db h]
  · have hf : taskIsActive (findExistingTask db issue.number) = false := by
      revert h; cases taskIsActive (findExistingTask db issue.number) <;> simp
    rw [handleIssue_dispatch env cfg issue repoRec rc db hf]
    obtain ⟨f, g, _, _, hrepos, _, _, _, _, _, _, _, _, _, _⟩ :=
      runAgentForTask_shape env cfg (reconcileTask db issue repoRec).2
        (reconcileTask db issue repoRec).1 issue rc
    rw [hrepos, reconcileTask_repos]

theorem repos_processIssues (env : Env) (cfg : EngineConfig) (rc : RepoWatchConfig)
    (repoRec : RepoRow) : ∀ (issues : List GitHubIssue) (db : DB),
    (processIssues env cfg rc repoRec db issues).repos = db.repos := by
  intro issues
  induction issues with
  | nil => intro db; rfl
  | cons i is ih =>
    intro db
    show (processIssues env cfg rc repoRec (handleIssue env cfg i repoRec rc db) is).repos = _
    rw [ih, repos_handleIssue]

theorem repos_processRepo (env : Env) (cfg : EngineConfig) (rc : RepoWatchConfig) (db : DB) :
    ∃ ext, (processRepo env cfg rc db).1.repos = db.repos ++ ext := by
  unfold processRepo
  dsimp only
  cases env.listIssues rc.owner rc.repo rc.label with
  | error e => exact upsertRepo_repos_ext db rc
  | ok issues =>
    obtain ⟨ext, hext⟩ := upsertRepo_repos_ext db rc
    exact ⟨ext, by rw [repos_processIssues, hext]⟩

theorem repos_pollRepos (env : Env) (cfg : EngineConfig) :
    ∀ (rcs : List RepoWatchConfig) (db : DB),
    ∃ ext, (pollRepos env cfg rcs db).repos = db.repos ++ ext := by
  intro rcs
  induction rcs with
  | nil => intro db; exact ⟨[], by simp [pollRepos]⟩
  | cons rc rcs ih =>
    intro db
    obtain ⟨e1, he1⟩ := repos_processRepo env cfg rc db
    obtain ⟨e2, he2⟩ := ih (processRepo env cfg rc db).1
    refine ⟨e1 ++ e2, ?_⟩
    show (pollRepos env cfg rcs (processRepo env cfg rc db).1).repos = _
    rw [he2, he1, List.append_assoc]

/-! ## Claims -/

/-- Claim C2: when `runAgentForTask` returns, every task row carrying the
dispatched task id is in `completed` or `failed` — never left `in_progress`
— and the AgentRun created at its start exists and is closed `completed` or
`failed`, never left `running`, regardless of which pipeline step failed. -/
theorem runAgentForTask_terminal (env : Env) (cfg : EngineConfig) (db : DB)
    (taskId : Nat) (issue : GitHubIssue) (rc : RepoWatchConfig) :
    (∀ t ∈ (runAgentForTask env cfg db taskId issue rc).tasks, t.id = taskId →
        t.status = TaskStatus.completed ∨ t.status = TaskStatus.failed) ∧
    (∀ t ∈ db.tasks, t.id = taskId →
        ∃ u ∈ (runAgentForTask env cfg db taskId issue rc).tasks, u.id = taskId ∧
          (u.status = TaskStatus.completed ∨ u.status = TaskStatus.failed)) ∧
    (∃ r ∈ (runAgentForTask env cfg db taskId issue rc).agentRuns,
        r.id = db.nextRunId ∧ r.taskId = taskId ∧
        (r.status = RunStatus.completed ∨ r.status = RunStatus.failed)) ∧
    (∀ r ∈ (runAgentForTask env cfg db taskId issue rc).agentRuns, r.id = db.nextRunId →
        r.status = RunStatus.completed ∨ r.status = RunStatus.failed) := by
  obtain ⟨f, g, ht, hr, _, _, _, _, hfid, _, hfterm, _, hgid, hgtid, hgterm⟩ :=
    runAgentForTask_shape env cfg db taskId issue rc
  refine ⟨?_, ?_, ?_, ?_⟩
  · intro t htm htid
    rw [ht] at htm
    obtain ⟨u, hu, rfl⟩ := List.mem_map.mp htm
    exact hfterm u (by rw [← hfid u]; exact htid)
  · intro t htm htid
    refine ⟨f t, ?_, ?_, ?_⟩
    · rw [ht]
      exact List.mem_map_of_mem f htm
    · rw [hfid]
      exact htid
    · exact hfterm t htid
  · refine ⟨g (newAgentRunRow cfg db.nextRunId taskId), ?_, ?_, ?_, ?_⟩
    · rw [hr]
      exact List.mem_map_of_mem g (List.mem_append_right _ (List.mem_singleton_self _))
    · rw [hgid]; rfl
    · rw [hgtid]; rfl
    · exact hgterm _ rfl
  · intro r hrm hrid
    rw [hr] at hrm
    obtain ⟨u, hu, rfl⟩ := List.mem_map.mp hrm
    exact hgterm u (by rw [← hgid u]; exact hrid)

/-- Witness for C2 at a concrete store and environment. -/
theorem runAgentForTask_terminal_witness :
    (∀ t ∈ (runAgentForTask okEnv cfg0 retryDb 7 issue42 rcA).tasks, t.id = 7 →
        t.status = TaskStatus.completed ∨ t.status = TaskStatus.failed) ∧
    (∀ t ∈ retryDb.tasks, t.id = 7 →
        ∃ u ∈ (runAgentForTask okEnv cfg0 retryDb 7 issue42 rcA).tasks, u.id = 7 ∧
          (u.status = TaskStatus.completed ∨ u.status = TaskStatus.failed)) ∧
    (∃ r ∈ (runAgentForTask okEnv cfg0 retryDb 7 issue42 rcA).agentRuns,
        r.id = 4 ∧ r.taskId = 7 ∧
        (r.status = RunStatus.completed ∨ r.status = RunStatus.failed)) ∧
    (∀ r ∈ (runAgentForTask okEnv cfg0 retryDb 7 issue42 rcA).agentRuns, r.id = 4 →
        r.status = RunStatus.completed ∨ r.status = RunStatus.failed) :=
  runAgentForTask_terminal okEnv cfg0 retryDb 7 issue42 rcA

/-- Claim C3: an issue whose existing Task is `failed` is retried by reusing
the very same Task row — same id, status reset to `in_progress` before
dispatch — with one new AgentRun row recorded for the attempt and bound to
that id; no brand-new Task row is inserted. -/
theorem handleIssue_retry_reuses_task (env : Env) (cfg : EngineConfig) (issue : GitHubIssue)
    (repoRec : RepoRow) (rc : RepoWatchConfig) (db : DB) (t : TaskRow)
    (hfind : findExistingTask db issue.number = some t)
    (hst : t.status = TaskStatus.failed) :
    taskIds (handleIssue env cfg issue repoRec rc db) = taskIds db ∧
    (reconcileTask db issue repoRec).1 = t.id ∧
    (∀ u ∈ (reconcileTask db issue repoRec).2.tasks, u.id = t.id →
        u.status = TaskStatus.in_progress) ∧
    handleIssue env cfg issue repoRec rc db
      = runAgentForTask env cfg (setTaskRetry db t.id repoRec.id) t.id issue rc ∧
    (handleIssue env cfg issue repoRec rc db).agentRuns.length = db.agentRuns.length + 1 ∧
    (∃ r ∈ (handleIssue env cfg issue repoRec rc db).agentRuns,
        r.id = db.nextRunId ∧ r.taskId = t.id) := by
  have hact : taskIsActive (findExistingTask db issue.number) = false := by
    rw [hfind]
    simp [taskIsActive, hst]
  have hrec := reconcileTask_failed db issue repoRec t hfind hst
  have hdisp : handleIssue env cfg issue repoRec rc db
      = runAgentForTask env cfg (setTaskRetry db t.id repoRec.id) t.id issue rc := by
    rw [handleIssue_dispatch env cfg issue repoRec rc db hact, hrec]
  obtain ⟨f, g, ht2, hr2, _, _, _, _, hfid, _, _, _, hgid, hgtid, _⟩ :=
    runAgentForTask_shape env cfg (setTaskRetry db t.id repoRec.id) t.id issue rc
  refine ⟨?_, ?_, ?_, hdisp, ?_, ?_⟩
  · rw [hdisp, taskIds_runAgentForTask]
    simp only [taskIds, setTaskRetry]
    exact map_proj_of_preserve _ _ (retryTask_id t.id repoRec.id) db.tasks
  · rw [hrec]
  · intro u hu huid
    rw [hrec] at hu
    obtain ⟨v, hv, rfl⟩ := List.mem_map.mp hu
    have hvid : v.id = t.id := by rw [← retryTask_id t.id repoRec.id v]; exact huid
    exact retryTask_self t.id repoRec.id v hvid
  · rw [hdisp, hr2]
    simp [setTaskRetry]
  · refine ⟨g (newAgentRunRow cfg db.nextRunId t.id), ?_, ?_, ?_⟩
    · rw [hdisp, hr2]
      exact List.mem_map_of_mem g (List.mem_append_right _ (List.mem_singleton_self _))
    · rw [hgid]; rfl
    · rw [hgtid]; rfl

/-- Witness for C3: issue 42 has failed task 7; the retry reuses id 7 and
appends one AgentRun with the fresh id 4 bound to task 7. -/
theorem handleIssue_retry_reuses_task_witness :
    taskIds (handleIssue okEnv cfg0 issue42 repoRow1 rcA retryDb) = taskIds retryDb ∧
    (reconcileTask retryDb issue42 repoRow1).1 = 7 ∧
    (∀ u ∈ (reconcileTask retryDb issue42 repoRow1).2.tasks, u.id = 7 →
        u.status = TaskStatus.in_progress) ∧
    handleIssue okEnv cfg0 issue42 repoRow1 rcA retryDb
      = runAgentForTask okEnv cfg0 (setTaskRetry retryDb 7 repoRow1.id) 7 issue42 rcA ∧
    (handleIssue okEnv cfg0 issue42 repoRow1 rcA retryDb).agentRuns.length
      = retryDb.agentRuns.length + 1 ∧
    (∃ r ∈ (handleIssue okEnv cfg0 issue42 repoRow1 rcA retryDb).agentRuns,
        r.id = 4 ∧ r.taskId = 7) :=
  handleIssue_retry_reuses_task okEnv cfg0 issue42 repoRow1 rcA retryDb failedTask42
    (by decide) (by decide)

/-- Claim C4: `runAgent` returns a structured result rather than throwing —
it is total on every spawn outcome — with `success = false` on a spawn
error or timeout (`error` set) and on a non-zero exit, and `success = true`
exactly when the child exited with code 0 (no spawn error and status 0). -/
theorem runAgent_success_iff (spawn : SpawnOutcome) :
    ((runAgent spawn).success = true ↔ spawn.error = none ∧ spawn.status = some 0) ∧
    (spawn.error ≠ none → (runAgent spawn).success = false) ∧
    (spawn.status ≠ some 0 → (runAgent spawn).success = false) := by
  unfold runAgent
  dsimp only
  cases herr : spawn.error with
  | some msg => simp
  | none =>
    by_cases hst : spawn.status = some 0
    · rw [if_pos hst]
      simp [hst]
    · rw [if_neg hst]
      simp [hst]

/-- Witness for C4: timeout, non-zero exit and clean exit at concrete spawn
outcomes. -/
theorem runAgent_success_iff_witness :
    (runAgent timeoutSpawn).success = false ∧
    (runAgent exit1Spawn).success = false ∧
    (runAgent okSpawn).success = true :=
  ⟨(runAgent_success_iff timeoutSpawn).2.1 (by decide),
   (runAgent_success_iff exit1Spawn).2.2 (by decide),
   (runAgent_success_iff okSpawn).1.mpr (by decide)⟩

/-- Counterexample for C8: with stdout `a` and stderr `b` the returned
`output` is `a\nb` — stdout and stderr joined with a newline — not the plain
concatenation `ab` the claim states. -/
theorem runAgent_output_not_plain_concat :
    (runAgent abSpawn).output ≠ (abSpawn.stdout.getD ("")) ++ (abSpawn.stderr.getD ("")) ∧
    (runAgent abSpawn).output = "a" ++ "\n" ++ "b" := by
  constructor
  · decide
  · decide

/-- Claim C8 (amended): `output` is always a string — the empty string when
both streams are empty — formed from the captured stdout followed by the
captured stderr in that order but joined with a single newline and with
empty streams omitted; with each stream bounded by the 10 MiB `maxBuffer`
capture limit, `output` is bounded by twice that limit plus the separator. -/
theorem runAgent_output_shape (spawn : SpawnOutcome)
    (hout : (spawn.stdout.getD ("")).length ≤ maxBufferBytes)
    (herr : (spawn.stderr.getD ("")).length ≤ maxBufferBytes) :
    (spawn.stdout.getD ("") = "" → (runAgent spawn).output = spawn.stderr.getD ("")) ∧
    (spawn.stdout.getD ("") ≠ "" → spawn.stderr.getD ("") = "" →
      (runAgent spawn).output = spawn.stdout.getD ("")) ∧
    (spawn.stdout.getD ("") ≠ "" → spawn.stderr.getD ("") ≠ "" →
      (runAgent spawn).output = spawn.stdout.getD ("") ++ "\n" ++ spawn.stderr.getD ("")) ∧
    (runAgent spawn).output.length ≤ 2 * maxBufferBytes + 1 := by
  have houtput : (runAgent spawn).output
      = joinOutputs (spawn.stdout.getD ("")) (spawn.stderr.getD ("")) := by
    unfold runAgent
    dsimp only
    cases spawn.error with
    | some msg => rfl
    | none =>
      by_cases hst : spawn.status = some 0
      · rw [if_pos hst]
      · rw [if_neg hst]
  rw [houtput]
  unfold joinOutputs
  refine ⟨?_, ?_, ?_, ?_⟩
  · intro h
    rw [if_pos h]
  · intro h1 h2
    rw [if_neg h1, if_pos h2]
  · intro h1 h2
    rw [if_neg h1, if_neg h2]
  · by_cases h1 : spawn.stdout.getD ("") = ""
    · rw [if_pos h1]
      omega
    · rw [if_neg h1]
      by_cases h2 : spawn.stderr.getD ("") = ""
      · rw [if_pos h2]
        omega
      · rw [if_neg h2]
        simp only [String.length_append]
        have hnl : ("\n" : String).length = 1 := rfl
        omega

/-- Witness for C8 at the concrete spawn outcome with both streams set. -/
theorem runAgent_output_shape_witness :
    (abSpawn.stdout.getD ("") = "" → (runAgent abSpawn).output = abSpawn.stderr.getD ("")) ∧
    (abSpawn.stdout.getD ("") ≠ "" → abSpawn.stderr.getD ("") = "" →
      (runAgent abSpawn).output = abSpawn.stdout.getD ("")) ∧
    (abSpawn.stdout.getD ("") ≠ "" → abSpawn.stderr.getD ("") ≠ "" →
      (runAgent abSpawn).output = abSpawn.stdout.getD ("") ++ "\n" ++ abSpawn.stderr.getD ("")) ∧
    (runAgent abSpawn).output.length ≤ 2 * maxBufferBytes + 1 :=
  runAgent_output_shape abSpawn (by decide) (by decide)

/-- Claim C9: the pipeline's branch is the deterministic `loom/issue-<n>`
name; the remote branch-creation outcome is discarded by `prepareBranch`
(so a pre-existing branch never aborts the pipeline, and the whole pipeline
result is independent of that outcome), and only the local
checkout-with-create outcome decides the branch-setup step. -/
theorem pipeline_branch_setup (env : Env) (cfg : EngineConfig) (db : DB) (taskId : Nat)
    (issue : GitHubIssue) (rc : RepoWatchConfig)
    (cb : String → String → String → Except String Unit) :
    prepareBranch { env with createBranch := cb } rc (branchNameOf issue.number)
        (pathJoin cfg.workDir (workDirNameOf rc.owner rc.repo issue.number))
      = env.checkoutBranch (pathJoin cfg.workDir (workDirNameOf rc.owner rc.repo issue.number))
          (branchNameOf issue.number) ∧
    runAgentForTask { env with createBranch := cb } cfg db taskId issue rc
      = runAgentForTask env cfg db taskId issue rc ∧
    branchNameOf issue.number = "loom/issue-" ++ Nat.repr issue.number := by
  refine ⟨prepareBranch_eq _ rc _ _, ?_, rfl⟩
  unfold runAgentForTask
  dsimp only
  rw [prepareBranch_eq { env with createBranch := cb }, prepareBranch_eq env]
  rfl

/-- Counterexample for C7: the mapping `(owner, repo, issueNumber)` to
`owner-repo-issueNumber` is not injective once names contain hyphens — the
distinct triples `("a", "b-c", 1)` and `("a-b", "c", 1)` share the workspace
directory `a-b-c-1`. -/
theorem workDirNameOf_collision :
    workDirNameOf ("a") ("b-c") 1 = workDirNameOf ("a-b") ("c") 1 ∧
    ¬ (("a" : String) = "a-b" ∧ ("b-c" : String) = "c" ∧ (1 : Nat) = 1) := by
  constructor
  · decide
  · decide

/-- Claim C7 (amended): `prepareWorkDir`'s directory basename
`owner-repo-issueNumber` is injective on triples whose owner contains no
hyphen; two such distinct triples never contend for one directory. -/
theorem workDirNameOf_inj (o1 r1 o2 r2 : String) (n1 n2 : Nat)
    (h1 : '-' ∉ o1.data) (h2 : '-' ∉ o2.data)
    (h : workDirNameOf o1 r1 n1 = workDirNameOf o2 r2 n2) :
    o1 = o2 ∧ r1 = r2 ∧ n1 = n2 := by
  have hdata := congrArg String.data h
  rw [workDirNameOf_data, workDirNameOf_data] at hdata
  obtain ⟨ho, hrest⟩ := sep_split_left '-' o1.data o2.data _ _ h1 h2 hdata
  obtain ⟨hr, hn⟩ := sep_split_right '-' r1.data r2.data _ _
    (nat_repr_no_dash n1) (nat_repr_no_dash n2) hrest
  exact ⟨String.ext ho, String.ext hr, nat_repr_inj n1 n2 (String.ext hn)⟩

/-- Witness for C7 at hyphen-free owners. -/
theorem workDirNameOf_inj_witness :
    ("octo" : String) = "octo" ∧ ("alpha" : String) = "alpha" ∧ (3 : Nat) = 3 :=
  workDirNameOf_inj ("octo") ("alpha") ("octo") ("alpha") 3 3 (by decide) (by decide) rfl

/-- Claim C6: the best-effort notifications of dispatch (working label,
progress comment) never influence the result nor propagate — `handleIssue`
returns the same store whatever their outcomes — and dispatch always
proceeds to the agent pipeline for the reconciled task. -/
theorem handleIssue_notifications (env : Env) (cfg : EngineConfig) (issue : GitHubIssue)
    (repoRec : RepoRow) (rc : RepoWatchConfig) (db : DB)
    (lbl cmt : String → String → Nat → String → Except String Unit)
    (h : taskIsActive (findExistingTask db issue.number) = false) :
    handleIssue { env with addIssueLabel := lbl, addIssueComment := cmt }
        cfg issue repoRec rc db
      = handleIssue env cfg issue repoRec rc db ∧
    handleIssue { env with addIssueLabel := lbl, addIssueComment := cmt }
        cfg issue repoRec rc db
      = runAgentForTask { env with addIssueLabel := lbl, addIssueComment := cmt } cfg
          (reconcileTask db issue repoRec).2 (reconcileTask db issue repoRec).1 issue rc := by
  refine ⟨rfl, ?_⟩
  exact handleIssue_dispatch { env with addIssueLabel := lbl, addIssueComment := cmt }
    cfg issue repoRec rc db h

/-- Witness for C6: failing label and comment calls leave the result equal
to the all-success run, and dispatch still reaches the pipeline. -/
theorem handleIssue_notifications_witness :
    handleIssue noisyEnv cfg0 issue42 repoRow1 rcA emptyDB
      = handleIssue okEnv cfg0 issue42 repoRow1 rcA emptyDB ∧
    handleIssue noisyEnv cfg0 issue42 repoRow1 rcA emptyDB
      = runAgentForTask noisyEnv cfg0 (reconcileTask emptyDB issue42 repoRow1).2
          (reconcileTask emptyDB issue42 repoRow1).1 issue42 rcA :=
  handleIssue_notifications okEnv cfg0 issue42 repoRow1 rcA emptyDB
    (fun _ _ _ _ => Except.error ("label missing"))
    (fun _ _ _ _ => Except.error ("comment rejected"))
    (by decide)

/-- Claim C10: when a `repos` row with the configured owner and name already
exists, `upsertRepo` returns a stored row with that owner and name and
leaves the store unchanged — in particular the stored `watchLabel` is not
updated even when the configured label differs — and a whole poll cycle only
ever appends to the `repos` table, never deleting or modifying a row. -/
theorem upsertRepo_preserves_existing (env : Env) (cfg : EngineConfig) (db : DB)
    (rc : RepoWatchConfig) (rcs : List RepoWatchConfig) (r : RepoRow)
    (hmem : r ∈ db.repos) (howner : r.owner = rc.owner) (hname : r.name = rc.repo) :
    (upsertRepo db rc).2 = db ∧
    ((upsertRepo db rc).1 ∈ db.repos ∧ (upsertRepo db rc).1.owner = rc.owner ∧
      (upsertRepo db rc).1.name = rc.repo) ∧
    (∃ ext, (pollRepos env cfg rcs db).repos = db.repos ++ ext) := by
  have hfilter : r ∈ db.repos.filter (fun u => decide (u.owner = rc.owner)) :=
    List.mem_filter.mpr ⟨hmem, by simp [howner]⟩
  cases hfind : (db.repos.filter (fun u => decide (u.owner = rc.owner))).find?
      (fun u => decide (u.name = rc.repo)) with
  | none =>
    exfalso
    have hno := List.find?_eq_none.mp hfind r hfilter
    simp [hname] at hno
  | some r2 =>
    have hr2f := List.mem_of_find?_eq_some hfind
    have hr2 := List.mem_filter.mp hr2f
    have hr2name : r2.name = rc.repo := by
      have hp := List.find?_some hfind
      simpa using hp
    refine ⟨?_, ⟨?_, ?_, ?_⟩, repos_pollRepos env cfg rcs db⟩
    · unfold upsertRepo
      dsimp only
      rw [hfind]
    · unfold upsertRepo
      dsimp only
      rw [hfind]
      exact hr2.1
    · unfold upsertRepo
      dsimp only
      rw [hfind]
      exact of_decide_eq_true hr2.2
    · unfold upsertRepo
      dsimp only
      rw [hfind]
      exact hr2name

/-- Witness for C10: rcA configures label `loom` but the stored row keeps
`old-label`; the store is returned unchanged. -/
theorem upsertRepo_preserves_existing_witness :
    (upsertRepo cexDb rcA).2 = cexDb ∧
    ((upsertRepo cexDb rcA).1 ∈ cexDb.repos ∧ (upsertRepo cexDb rcA).1.owner = rcA.owner ∧
      (upsertRepo cexDb rcA).1.name = rcA.repo) ∧
    (∃ ext, (pollRepos okEnv cfg0 [rcA, rcB] cexDb).repos = cexDb.repos ++ ext) :=
  upsertRepo_preserves_existing okEnv cfg0 cexDb rcA [rcA, rcB] repoRow1
    (by decide) (by decide) (by decide)

/-- Counterexample for C1: the source looks an existing Task up by
`githubIssueId` alone, not by the `(repo, githubIssueId)` pair.  In `cexDb`
the pair `(repo 2, issue 42)` has no associated Task at all, yet re-polling
repo 2's issue 42 changes nothing — the lookup finds repo 1's completed task
for issue 42 and skips — while the spec's pair-keyed reconciliation would
have created a Task for the pair.  The code and the claimed lookup disagree
at this concrete input. -/
theorem handleIssue_pair_lookup_cex :
    findTaskByRepoAndIssue cexDb repoRow2.id issue42.number = none ∧
    handleIssue okEnv cfg0 issue42 repoRow2 rcB cexDb = cexDb ∧
    (handleIssueSpecLookup okEnv cfg0 issue42 repoRow2 rcB cexDb).tasks.length
      = cexDb.tasks.length + 1 ∧
    handleIssue okEnv cfg0 issue42 repoRow2 rcB cexDb
      ≠ handleIssueSpecLookup okEnv cfg0 issue42 repoRow2 rcB cexDb := by
  refine ⟨by decide, by decide, by decide, by decide⟩

/-- Claim C1 (amended): the Orchestrator looks the existing Task up by
`githubIssueId` alone (the repository is not part of the key).  In any store
whose tasks carry only the statuses the Orchestrator itself produces (never
`todo`), while the `(repo, githubIssueId)` pair has an associated Task in
`in_progress` or `completed`, re-polling inserts no Task row at all — in
particular no second Task for that pair: the task-id and issue-id columns
are unchanged. -/
theorem handleIssue_dedup_by_issue (env : Env) (cfg : EngineConfig) (issue : GitHubIssue)
    (repoRec : RepoRow) (rc : RepoWatchConfig) (db : DB)
    (hclean : ∀ t ∈ db.tasks, t.status ≠ TaskStatus.todo)
    (hpair : ∃ t ∈ db.tasks, t.repoId = some repoRec.id ∧
      t.githubIssueId = some issue.number ∧
      (t.status = TaskStatus.in_progress ∨ t.status = TaskStatus.completed)) :
    taskIds (handleIssue env cfg issue repoRec rc db) = taskIds db ∧
    taskIssueIds (handleIssue env cfg issue repoRec rc db) = taskIssueIds db := by
  obtain ⟨t0, ht0mem, _, ht0issue, _⟩ := hpair
  have hne : findExistingTask db issue.number ≠ none := by
    rw [Ne, findExistingTask_eq_none]
    intro hnot
    exact hnot (List.mem_map.mpr ⟨t0, ht0mem, ht0issue⟩)
  obtain ⟨t1, hfind⟩ := Option.ne_none_iff_exists'.mp hne
  obtain ⟨ht1mem, ht1issue⟩ := findExistingTask_some_mem db issue.number t1 hfind
  cases ht1s : t1.status with
  | todo => exact absurd ht1s (hclean t1 ht1mem)
  | in_progress =>
    have hact : taskIsActive (findExistingTask db issue.number) = true := by
      rw [hfind]
      simp [taskIsActive, ht1s]
    rw [handleIssue_skip env cfg issue repoRec rc db hact]
    exact ⟨rfl, rfl⟩
  | completed =>
    have hact : taskIsActive (findExistingTask db issue.number) = true := by
      rw [hfind]
      simp [taskIsActive, ht1s]
    rw [handleIssue_skip env cfg issue repoRec rc db hact]
    exact ⟨rfl, rfl⟩
  | failed =>
    have hact : taskIsActive (findExistingTask db issue.number) = false := by
      rw [hfind]
      simp [taskIsActive, ht1s]
    rw [handleIssue_dispatch env cfg issue repoRec rc db hact,
        reconcileTask_failed db issue repoRec t1 hfind ht1s]
    constructor
    · rw [taskIds_runAgentForTask]
      simp only [taskIds, setTaskRetry]
      exact map_proj_of_preserve _ _ (retryTask_id t1.id repoRec.id) db.tasks
    · rw [taskIssueIds_runAgentForTask]
      simp only [taskIssueIds, setTaskRetry]
      exact map_proj_of_preserve _ _ (retryTask_issueId t1.id repoRec.id) db.tasks

/-- Witness for C1: repo 1 polls issue 42 whose pair-associated task is
completed; nothing is inserted. -/
theorem handleIssue_dedup_by_issue_witness :
    taskIds (handleIssue okEnv cfg0 issue42 repoRow1 rcA cexDb) = taskIds cexDb ∧
    taskIssueIds (handleIssue okEnv cfg0 issue42 repoRow1 rcA cexDb) = taskIssueIds cexDb :=
  handleIssue_dedup_by_issue okEnv cfg0 issue42 repoRow1 rcA cexDb
    (by decide) (by decide)

/-- Claim C5: failure isolation within one poll cycle.  With repo 1's issue
listing failing, repo 2 is still fully processed on the carried-over store;
and with issue A's pipeline failing at the clone step, issue B — later in
the same repository — is still processed: A's task ends `failed` while B
still gets a task row driven to a terminal status, whatever B's own
pipeline outcomes. -/
theorem poll_isolation (env : Env) (cfg : EngineConfig) (db : DB)
    (rc1 rc2 : RepoWatchConfig) (iA iB : GitHubIssue) (e1 e2 : String)
    (h1 : env.listIssues rc1.owner rc1.repo rc1.label = Except.error e1)
    (h2 : env.listIssues rc2.owner rc2.repo rc2.label = Except.ok [iA, iB])
    (h3 : env.cloneRepo (cloneUrlOf cfg.githubToken rc2.owner rc2.repo)
        (pathJoin cfg.workDir (workDirNameOf rc2.owner rc2.repo iA.number)) = Except.error e2)
    (h4 : some iA.number ∉ taskIssueIds db)
    (h5 : some iB.number ∉ taskIssueIds db)
    (h6 : iA.number ≠ iB.number) :
    pollRepos env cfg [rc1, rc2] db = (processRepo env cfg rc2 (upsertRepo db rc1).2).1 ∧
    (∃ tA ∈ (pollRepos env cfg [rc1, rc2] db).tasks,
        tA.githubIssueId = some iA.number ∧ tA.status = TaskStatus.failed) ∧
    (∃ tB ∈ (pollRepos env cfg [rc1, rc2] db).tasks,
        tB.githubIssueId = some iB.number ∧
        (tB.status = TaskStatus.completed ∨ tB.status = TaskStatus.failed)) := by
  have hp1 : (processRepo env cfg rc1 db).1 = (upsertRepo db rc1).2 := by
    unfold processRepo
    dsimp only
    rw [h1]
  have hstep1 : pollRepos env cfg [rc1, rc2] db
      = (processRepo env cfg rc2 (upsertRepo db rc1).2).1 := by
    show (processRepo env cfg rc2 (processRepo env cfg rc1 db).1).1 = _
    rw [hp1]
  -- name the pieces of repo 2's processing
  have hU2tasks : (upsertRepo (upsertRepo db rc1).2 rc2).2.tasks = db.tasks := by
    rw [upsertRepo_tasks, upsertRepo_tasks]
  have hU2issue : taskIssueIds (upsertRepo (upsertRepo db rc1).2 rc2).2 = taskIssueIds db := by
    simp only [taskIssueIds, hU2tasks]
  have hpoll : pollRepos env cfg [rc1, rc2] db
      = handleIssue env cfg iB (upsertRepo (upsertRepo db rc1).2 rc2).1 rc2
          (handleIssue env cfg iA (upsertRepo (upsertRepo db rc1).2 rc2).1 rc2
            (upsertRepo (upsertRepo db rc1).2 rc2).2) := by
    rw [hstep1]
    unfold processRepo
    dsimp only
    rw [h2]
    rfl
  -- issue A is fresh and its clone fails
  have hfindA : findExistingTask (upsertRepo (upsertRepo db rc1).2 rc2).2 iA.number = none := by
    rw [findExistingTask_eq_none, hU2issue]
    exact h4
  have hactA : taskIsActive
      (findExistingTask (upsertRepo (upsertRepo db rc1).2 rc2).2 iA.number) = false := by
    rw [hfindA]
    rfl
  have hA : handleIssue env cfg iA (upsertRepo (upsertRepo db rc1).2 rc2).1 rc2
        (upsertRepo (upsertRepo db rc1).2 rc2).2
      = runAgentForTask env cfg
          (insertTask (upsertRepo (upsertRepo db rc1).2 rc2).2 iA
            (upsertRepo (upsertRepo db rc1).2 rc2).1.id).2
          (insertTask (upsertRepo (upsertRepo db rc1).2 rc2).2 iA
            (upsertRepo (upsertRepo db rc1).2 rc2).1.id).1 iA rc2 := by
    rw [handleIssue_dispatch env cfg iA (upsertRepo (upsertRepo db rc1).2 rc2).1 rc2
          (upsertRepo (upsertRepo db rc1).2 rc2).2 hactA,
        reconcileTask_fresh (upsertRepo (upsertRepo db rc1).2 rc2).2 iA
          (upsertRepo (upsertRepo db rc1).2 rc2).1 hfindA]
  rw [runAgentForTask_clone_error env cfg _ _ iA rc2 e2 h3] at hA
  -- the store after issue A, described explicitly
  have hA3tasks : (handleIssue env cfg iA (upsertRepo (upsertRepo db rc1).2 rc2).1 rc2
        (upsertRepo (upsertRepo db rc1).2 rc2).2).tasks
      = (db.tasks ++ [newTaskRow (upsertRepo (upsertRepo db rc1).2 rc2).2 iA
          (upsertRepo (upsertRepo db rc1).2 rc2).1.id]).map
          (failTask (upsertRepo (upsertRepo db rc1).2 rc2).2.nextTaskId) := by
    rw [hA]
    show ((upsertRepo (upsertRepo db rc1).2 rc2).2.tasks ++ _).map _ = _
    rw [hU2tasks]
    rfl
  have hAissue : taskIssueIds (handleIssue env cfg iA
        (upsertRepo (upsertRepo db rc1).2 rc2).1 rc2
        (upsertRepo (upsertRepo db rc1).2 rc2).2)
      = taskIssueIds db ++ [some iA.number] := by
    simp only [taskIssueIds, hA3tasks]
    rw [map_proj_of_preserve _ _ (failTask_issueId _), List.map_append]
    rfl
  -- issue B is still fresh afterwards
  have hfindB : findExistingTask (handleIssue env cfg iA
        (upsertRepo (upsertRepo db rc1).2 rc2).1 rc2
        (upsertRepo (upsertRepo db rc1).2 rc2).2) iB.number = none := by
    rw [findExistingTask_eq_none, hAissue]
    intro hmem
    rcases List.mem_append.mp hmem with hm | hm
    · exact h5 hm
    · rw [List.mem_singleton] at hm
      exact h6 (Option.some_inj.mp hm).symm
  have hactB : taskIsActive (findExistingTask (handleIssue env cfg iA
        (upsertRepo (upsertRepo db rc1).2 rc2).1 rc2
        (upsertRepo (upsertRepo db rc1).2 rc2).2) iB.number) = false := by
    rw [hfindB]
    rfl
  have hB : handleIssue env cfg iB (upsertRepo (upsertRepo db rc1).2 rc2).1 rc2
        (handleIssue env cfg iA (upsertRepo (upsertRepo db rc1).2 rc2).1 rc2
          (upsertRepo (upsertRepo db rc1).2 rc2).2)
      = runAgentForTask env cfg
          (insertTask (handleIssue env cfg iA (upsertRepo (upsertRepo db rc1).2 rc2).1 rc2
            (upsertRepo (upsertRepo db rc1).2 rc2).2) iB
            (upsertRepo (upsertRepo db rc1).2 rc2).1.id).2
          (insertTask (handleIssue env cfg iA (upsertRepo (upsertRepo db rc1).2 rc2).1 rc2
            (upsertRepo (upsertRepo db rc1).2 rc2).2) iB
            (upsertRepo (upsertRepo db rc1).2 rc2).1.id).1 iB rc2 := by
    rw [handleIssue_dispatch env cfg iB (upsertRepo (upsertRepo db rc1).2 rc2).1 rc2
          (handleIssue env cfg iA (upsertRepo (upsertRepo db rc1).2 rc2).1 rc2
            (upsertRepo (upsertRepo db rc1).2 rc2).2) hactB,
        reconcileTask_fresh _ iB _ hfindB]
  obtain ⟨f, g, hftasks, _, _, _, _, _, hfid, hfissue, hfterm, hfskip, _, _, _⟩ :=
    runAgentForTask_shape env cfg
      (insertTask (handleIssue env cfg iA (upsertRepo (upsertRepo db rc1).2 rc2).1 rc2
        (upsertRepo (upsertRepo db rc1).2 rc2).2) iB
        (upsertRepo (upsertRepo db rc1).2 rc2).1.id).2
      (insertTask (handleIssue env cfg iA (upsertRepo (upsertRepo db rc1).2 rc2).1 rc2
        (upsertRepo (upsertRepo db rc1).2 rc2).2) iB
        (upsertRepo (upsertRepo db rc1).2 rc2).1.id).1 iB rc2
  have hfinal : (pollRepos env cfg [rc1, rc2] db).tasks
      = ((handleIssue env cfg iA (upsertRepo (upsertRepo db rc1).2 rc2).1 rc2
          (upsertRepo (upsertRepo db rc1).2 rc2).2).tasks
        ++ [newTaskRow (handleIssue env cfg iA (upsertRepo (upsertRepo db rc1).2 rc2).1 rc2
            (upsertRepo (upsertRepo db rc1).2 rc2).2) iB
            (upsertRepo (upsertRepo db rc1).2 rc2).1.id]).map f := by
    rw [hpoll, hB]
    exact hftasks
  refine ⟨hstep1, ?_, ?_⟩
  · -- issue A's task, failed, survives issue B's pipeline untouched
    refine ⟨f (failTask (upsertRepo (upsertRepo db rc1).2 rc2).2.nextTaskId
        (newTaskRow (upsertRepo (upsertRepo db rc1).2 rc2).2 iA
          (upsertRepo (upsertRepo db rc1).2 rc2).1.id)), ?_, ?_, ?_⟩
    · rw [hfinal]
      apply List.mem_map_of_mem f
      apply List.mem_append_left
      rw [hA3tasks]
      exact List.mem_map_of_mem _ (List.mem_append_right _ (List.mem_singleton_self _))
    · rw [hfissue, failTask_issueId]
      rfl
    · have hne : (failTask (upsertRepo (upsertRepo db rc1).2 rc2).2.nextTaskId
          (newTaskRow (upsertRepo (upsertRepo db rc1).2 rc2).2 iA
            (upsertRepo (upsertRepo db rc1).2 rc2).1.id)).id
          ≠ (insertTask (handleIssue env cfg iA (upsertRepo (upsertRepo db rc1).2 rc2).1 rc2
              (upsertRepo (upsertRepo db rc1).2 rc2).2) iB
              (upsertRepo (upsertRepo db rc1).2 rc2).1.id).1 := by
        rw [failTask_id]
        show (upsertRepo (upsertRepo db rc1).2 rc2).2.nextTaskId
          ≠ (handleIssue env cfg iA (upsertRepo (upsertRepo db rc1).2 rc2).1 rc2
              (upsertRepo (upsertRepo db rc1).2 rc2).2).nextTaskId
        rw [hA]
        show (upsertRepo (upsertRepo db rc1).2 rc2).2.nextTaskId
          ≠ (upsertRepo (upsertRepo db rc1).2 rc2).2.nextTaskId + 1
        omega
      rw [hfskip _ hne, failTask_self]
      rfl
  · -- issue B's task exists and is terminal
    refine ⟨f (newTaskRow (handleIssue env cfg iA (upsertRepo (upsertRepo db rc1).2 rc2).1 rc2
        (upsertRepo (upsertRepo db rc1).2 rc2).2) iB
        (upsertRepo (upsertRepo db rc1).2 rc2).1.id), ?_, ?_, ?_⟩
    · rw [hfinal]
      exact List.mem_map_of_mem f (List.mem_append_right _ (List.mem_singleton_self _))
    · rw [hfissue]
      rfl
    · exact hfterm _ rfl

/-- Witness for C5 at the concrete mixed-failure environment. -/
theorem poll_isolation_witness :
    pollRepos mixEnv cfg0 [rcA, rcB] emptyDB
      = (processRepo mixEnv cfg0 rcB (upsertRepo emptyDB rcA).2).1 ∧
    (∃ tA ∈ (pollRepos mixEnv cfg0 [rcA, rcB] emptyDB).tasks,
        tA.githubIssueId = some issue7.number ∧ tA.status = TaskStatus.failed) ∧
    (∃ tB ∈ (pollRepos mixEnv cfg0 [rcA, rcB] emptyDB).tasks,
        tB.githubIssueId = some issue8.number ∧
        (tB.status = TaskStatus.completed ∨ tB.status = TaskStatus.failed)) :=
  poll_isolation mixEnv cfg0 emptyDB rcA rcB issue7 issue8 ("listing failed") ("clone failed")
    rfl rfl rfl (by decide) (by decide) (by decide)

end Loom
